import Mathlib

/-!
Verification of the emissions-calculator backend (`src/backend/backend_main.py`).

The whole program is one stateless request-response transformation: a list of
vehicle fuel records is turned into per-record CO2 figures, an aggregate total,
share percentages and a projected future total.  We embed that computation over
exact rationals (`ℚ`): every Python float literal is the corresponding decimal
rational, and the dictionary lookup that raises `KeyError` on an unknown fuel
type becomes an `Except` value carrying the offending (lowercased) key.
-/

/-- Python `str.lower()` on the strings used here: lowercase each character. -/
def pyLower (s : String) : String := String.mk (s.data.map Char.toLower)

/-- The `EMISSION_FACTORS` table: fuel-type key → kg CO2 per liter
(`2.3477` and `2.6893` as exact rationals). -/
def EMISSION_FACTORS : List (String × ℚ) :=
  [("petrol", 23477 / 10000), ("diesel", 26893 / 10000)]

/-- Dictionary lookup `EMISSION_FACTORS[key]`, as an `Option`. -/
def lookupFactor (key : String) : Option ℚ := EMISSION_FACTORS.lookup key

/-- `VehicleInput` pydantic model (one input record). -/
structure VehicleInput where
  vehicle_type : String
  count : Int
  fuel_type : String
  liters_per_vehicle : ℚ
deriving DecidableEq, Repr

/-- `EmissionsRequest` pydantic model (one request). -/
structure EmissionsRequest where
  vehicles : List VehicleInput
  location : String
  year : Int
deriving DecidableEq, Repr

/-- A per-vehicle entry as built by the first loop of `calculate_emissions`
(before the percentage pass adds the derived fields). -/
structure PerVehicle where
  vehicle_type : String
  fuel_type : String
  count : Int
  total_fuel : ℚ
  co2_kg : ℚ
deriving DecidableEq, Repr

/-- A fully built entry of `vehicle_results` after the percentage pass. -/
structure VehicleResult where
  vehicle_type : String
  fuel_type : String
  count : Int
  total_fuel : ℚ
  co2_kg : ℚ
  co2_tons : ℚ
  percent_of_total : ℚ
  ozone_impact_percent : ℚ
  climate_change_percent : ℚ
  glacier_melt_percent : ℚ
deriving DecidableEq, Repr

/-- The dictionary returned by `calculate_emissions`. -/
structure EmissionsResult where
  location : String
  year : Int
  vehicle_results : List VehicleResult
  total_co2_tons : ℚ
  projected_co2_tons : ℚ
deriving DecidableEq, Repr

/-- The `# Mock factors` constants of the percentage pass (`0.12`, `0.08`,
`0.04` as exact rationals). -/
def ozone_factor : ℚ := 12 / 100

def climate_factor : ℚ := 8 / 100

def glacier_factor : ℚ := 4 / 100

/-- Body of the first loop for one record `v` whose factor lookup returned `ef`:
`total_fuel = count * liters_per_vehicle`, `co2_kg = total_fuel * ef`. -/
def perVehicle (v : VehicleInput) (ef : ℚ) : PerVehicle :=
  let total_fuel : ℚ := (v.count : ℚ) * v.liters_per_vehicle
  { vehicle_type := v.vehicle_type
    fuel_type := v.fuel_type
    count := v.count
    total_fuel := total_fuel
    co2_kg := total_fuel * ef }

/-- The first loop of `calculate_emissions`: one entry per record, in order;
`EMISSION_FACTORS[v.fuel_type.lower()]` raises (here: errors with the
lowercased key) on the first record whose fuel type is unknown. -/
def computePerVehicles : List VehicleInput → Except String (List PerVehicle)
  | [] => Except.ok []
  | v :: vs =>
    match lookupFactor (pyLower v.fuel_type) with
    | none => Except.error (pyLower v.fuel_type)
    | some ef =>
      match computePerVehicles vs with
      | Except.error e => Except.error e
      | Except.ok rest => Except.ok (perVehicle v ef :: rest)

/-- Body of the second loop (`r.update({...})`) for one entry, given the
aggregate `total_co2_tons`; each guarded expression mirrors the Python
`expr if total_co2_tons else 0`. -/
def finalizeResult (total_co2_tons : ℚ) (r : PerVehicle) : VehicleResult :=
  let co2_tons : ℚ := r.co2_kg / 1000
  { vehicle_type := r.vehicle_type
    fuel_type := r.fuel_type
    count := r.count
    total_fuel := r.total_fuel
    co2_kg := r.co2_kg
    co2_tons := co2_tons
    percent_of_total := if total_co2_tons ≠ 0 then co2_tons / total_co2_tons * 100 else 0
    ozone_impact_percent :=
      if total_co2_tons ≠ 0 then co2_tons * ozone_factor / total_co2_tons * 100 else 0
    climate_change_percent :=
      if total_co2_tons ≠ 0 then co2_tons * climate_factor / total_co2_tons * 100 else 0
    glacier_melt_percent :=
      if total_co2_tons ≠ 0 then co2_tons * glacier_factor / total_co2_tons * 100 else 0 }

/-- The endpoint `calculate_emissions`: first loop, aggregation, percentage
pass, projection, and result assembly. -/
def calculate_emissions (data : EmissionsRequest) : Except String EmissionsResult :=
  match computePerVehicles data.vehicles with
  | Except.error e => Except.error e
  | Except.ok results =>
    let total_co2_kg : ℚ := (results.map PerVehicle.co2_kg).sum
    let total_co2_tons : ℚ := total_co2_kg / 1000
    let years_ahead : Int := max (data.year - 2025) 0
    let projected_tons : ℚ := total_co2_tons * (1 + 5 / 1000) ^ years_ahead.toNat
    Except.ok
      { location := data.location
        year := data.year
        vehicle_results := results.map (finalizeResult total_co2_tons)
        total_co2_tons := total_co2_tons
        projected_co2_tons := projected_tons }

/-- The request of concrete scenario 1: one petrol car record, location `"X"`,
year `2025`.  Also used to instantiate witness theorems. -/
def reqScenario1 : EmissionsRequest :=
  { vehicles := [{ vehicle_type := "car", count := 2, fuel_type := "petrol",
                   liters_per_vehicle := 10 }],
    location := "X", year := 2025 }

/-- The full result the code produces on `reqScenario1` (`46.954` kg,
`0.046954` tons, as exact rationals). -/
def resScenario1 : EmissionsResult :=
  { location := "X", year := 2025,
    vehicle_results :=
      [{ vehicle_type := "car", fuel_type := "petrol", count := 2,
         total_fuel := 20, co2_kg := 46954 / 1000, co2_tons := 46954 / 1000000,
         percent_of_total := 100, ozone_impact_percent := 12,
         climate_change_percent := 8, glacier_melt_percent := 4 }],
    total_co2_tons := 46954 / 1000000, projected_co2_tons := 46954 / 1000000 }

/-! ## Helper lemmas -/

theorem pyLower_petrol : pyLower "petrol" = "petrol" := by decide

theorem pyLower_diesel : pyLower "diesel" = "diesel" := by decide

theorem pyLower_hydrogen : pyLower "Hydrogen" = "hydrogen" := by decide

theorem lookupFactor_petrol : lookupFactor "petrol" = some (23477 / 10000) := by
  simp [lookupFactor, EMISSION_FACTORS, List.lookup]

theorem lookupFactor_diesel : lookupFactor "diesel" = some (26893 / 10000) := by
  simp [lookupFactor, EMISSION_FACTORS, List.lookup]

theorem lookupFactor_hydrogen : lookupFactor "hydrogen" = none := by
  simp [lookupFactor, EMISSION_FACTORS, List.lookup]

/-- A successful first loop yields one entry per input record. -/
theorem computePerVehicles_ok_length (vs : List VehicleInput) (rs : List PerVehicle)
    (h : computePerVehicles vs = Except.ok rs) : rs.length = vs.length := by
  induction vs generalizing rs with
  | nil =>
    simp only [computePerVehicles] at h
    cases h
    rfl
  | cons v vt ih =>
    simp only [computePerVehicles] at h
    cases hl : lookupFactor (pyLower v.fuel_type) with
    | none => rw [hl] at h; cases h
    | some ef =>
      rw [hl] at h
      cases ht : computePerVehicles vt with
      | error e => rw [ht] at h; cases h
      | ok rest =>
        rw [ht] at h
        cases h
        simp [ih rest ht]

/-- On a successful first loop, the `i`-th entry comes from the `i`-th record
by a successful factor lookup. -/
theorem computePerVehicles_ok_get (vs : List VehicleInput) (rs : List PerVehicle)
    (h : computePerVehicles vs = Except.ok rs) (i : Nat) (v : VehicleInput)
    (hv : vs[i]? = some v) :
    ∃ ef, lookupFactor (pyLower v.fuel_type) = some ef ∧
      rs[i]? = some (perVehicle v ef) := by
  induction vs generalizing rs i with
  | nil => simp at hv
  | cons w vt ih =>
    simp only [computePerVehicles] at h
    cases hl : lookupFactor (pyLower w.fuel_type) with
    | none => rw [hl] at h; cases h
    | some ef =>
      rw [hl] at h
      cases ht : computePerVehicles vt with
      | error e => rw [ht] at h; cases h
      | ok rest =>
        rw [ht] at h
        cases h
        cases i with
        | zero =>
          simp only [List.getElem?_cons_zero, Option.some.injEq] at hv
          subst hv
          exact ⟨ef, hl, by simp⟩
        | succ j =>
          simp only [List.getElem?_cons_succ] at hv
          rcases ih rest ht j hv with ⟨ef2, hef2, hget2⟩
          exact ⟨ef2, hef2, by simpa using hget2⟩

/-- If some record's lowercased fuel type fails the lookup, the first loop
errors, carrying the lowercased key of (the first) such record. -/
theorem computePerVehicles_error (vs : List VehicleInput)
    (h : ∃ v ∈ vs, lookupFactor (pyLower v.fuel_type) = none) :
    ∃ v ∈ vs, lookupFactor (pyLower v.fuel_type) = none ∧
      computePerVehicles vs = Except.error (pyLower v.fuel_type) := by
  induction vs with
  | nil => simp at h
  | cons v vt ih =>
    cases hl : lookupFactor (pyLower v.fuel_type) with
    | none =>
      exact ⟨v, List.mem_cons_self v vt, hl, by simp only [computePerVehicles, hl]⟩
    | some ef =>
      have htail : ∃ w ∈ vt, lookupFactor (pyLower w.fuel_type) = none := by
        rcases h with ⟨w, hw, hwn⟩
        rcases List.mem_cons.mp hw with rfl | hwt
        · rw [hl] at hwn; cases hwn
        · exact ⟨w, hwt, hwn⟩
      rcases ih htail with ⟨w, hwt, hwn, herr⟩
      refine ⟨w, List.mem_cons_of_mem v hwt, hwn, ?_⟩
      simp only [computePerVehicles, hl, herr]

/-- Inversion of a successful run of `calculate_emissions`: the first loop
succeeded and each output field is the corresponding assembled value. -/
theorem calculate_emissions_ok (data : EmissionsRequest) (res : EmissionsResult)
    (h : calculate_emissions data = Except.ok res) :
    ∃ rs, computePerVehicles data.vehicles = Except.ok rs ∧
      res.location = data.location ∧ res.year = data.year ∧
      res.total_co2_tons = (rs.map PerVehicle.co2_kg).sum / 1000 ∧
      res.projected_co2_tons =
        res.total_co2_tons * (1 + 5 / 1000) ^ (max (data.year - 2025) 0).toNat ∧
      res.vehicle_results = rs.map (finalizeResult res.total_co2_tons) := by
  unfold calculate_emissions at h
  cases hcv : computePerVehicles data.vehicles with
  | error e => rw [hcv] at h; cases h
  | ok rs =>
    rw [hcv] at h
    cases h
    exact ⟨rs, rfl, rfl, rfl, rfl, rfl, rfl⟩

/-- Pulling a constant factor out of a list sum. -/
theorem list_sum_map_mul_const (l : List ℚ) (c : ℚ) :
    (l.map (fun x => x * c)).sum = l.sum * c := by
  induction l with
  | nil => simp
  | cons x xs ih => simp [ih, add_mul]

/-- The code's output on the request of concrete scenario 1. -/
theorem calc_reqScenario1 : calculate_emissions reqScenario1 = Except.ok resScenario1 := by
  simp [calculate_emissions, computePerVehicles, reqScenario1, pyLower_petrol,
    lookupFactor, EMISSION_FACTORS, List.lookup, perVehicle, finalizeResult,
    resScenario1, ozone_factor, climate_factor, glacier_factor]
  norm_num

/-- A request with a single record of an unknown fuel type (`"Hydrogen"`). -/
def reqBad : EmissionsRequest :=
  { vehicles := [{ vehicle_type := "truck", count := 1, fuel_type := "Hydrogen",
                   liters_per_vehicle := 3 }],
    location := "Q", year := 2026 }

/-- A request whose only record has `count = 0`, so the aggregate total is zero. -/
def reqZero : EmissionsRequest :=
  { vehicles := [{ vehicle_type := "bike", count := 0, fuel_type := "Diesel",
                   liters_per_vehicle := 3 }],
    location := "Z", year := 2030 }

/-- The code's output on `reqZero`: all quantities and percentages zero. -/
def resZero : EmissionsResult :=
  { location := "Z", year := 2030,
    vehicle_results :=
      [{ vehicle_type := "bike", fuel_type := "Diesel", count := 0,
         total_fuel := 0, co2_kg := 0, co2_tons := 0, percent_of_total := 0,
         ozone_impact_percent := 0, climate_change_percent := 0,
         glacier_melt_percent := 0 }],
    total_co2_tons := 0, projected_co2_tons := 0 }

theorem pyLower_cap_diesel : pyLower "Diesel" = "diesel" := by decide

/-- The code's output on `reqZero`. -/
theorem calc_reqZero : calculate_emissions reqZero = Except.ok resZero := by
  simp [calculate_emissions, computePerVehicles, reqZero, pyLower_cap_diesel,
    lookupFactor, EMISSION_FACTORS, List.lookup, perVehicle, finalizeResult, resZero]

/-! ## Claims -/

/-- C1: for every record of every succeeding request, the corresponding
vehicle result has `total_fuel = count * liters_per_vehicle` and
`co2_kg = total_fuel * ef` where `ef` is the factor found by lowercasing the
record's fuel type and looking it up in the table, and the table maps
`petrol` to `2.3477` and `diesel` to `2.6893`. -/
theorem c1_per_record_formulas (data : EmissionsRequest) (res : EmissionsResult)
    (h : calculate_emissions data = Except.ok res) (i : Nat) (v : VehicleInput)
    (hv : data.vehicles[i]? = some v) :
    lookupFactor "petrol" = some (23477 / 10000) ∧
    lookupFactor "diesel" = some (26893 / 10000) ∧
    ∃ ef r, lookupFactor (pyLower v.fuel_type) = some ef ∧
      res.vehicle_results[i]? = some r ∧
      r.total_fuel = (v.count : ℚ) * v.liters_per_vehicle ∧
      r.co2_kg = r.total_fuel * ef := by
  rcases calculate_emissions_ok data res h with ⟨rs, hcv, -, -, -, -, hres⟩
  rcases computePerVehicles_ok_get data.vehicles rs hcv i v hv with ⟨ef, hef, hget⟩
  refine ⟨lookupFactor_petrol, lookupFactor_diesel, ef,
    finalizeResult res.total_co2_tons (perVehicle v ef), hef, ?_, ?_, ?_⟩
  · rw [hres, List.getElem?_map, hget]
    rfl
  · rfl
  · rfl

/-- C1 witness: the theorem instantiated on concrete scenario 1 at index 0. -/
theorem c1_per_record_formulas_witness :
    lookupFactor "petrol" = some (23477 / 10000) ∧
    lookupFactor "diesel" = some (26893 / 10000) ∧
    ∃ ef r,
      lookupFactor (pyLower (VehicleInput.mk "car" 2 "petrol" 10).fuel_type) = some ef ∧
      resScenario1.vehicle_results[0]? = some r ∧
      r.total_fuel = (((VehicleInput.mk "car" 2 "petrol" 10).count : Int) : ℚ) *
        (VehicleInput.mk "car" 2 "petrol" 10).liters_per_vehicle ∧
      r.co2_kg = r.total_fuel * ef :=
  c1_per_record_formulas reqScenario1 resScenario1 calc_reqScenario1 0
    (VehicleInput.mk "car" 2 "petrol" 10) rfl

/-- C2: a request containing a record whose lowercased fuel type is not in the
table fails with an error carrying that lowercased fuel type, and no result of
any kind is produced. -/
theorem c2_unknown_fuel_rejected (data : EmissionsRequest)
    (h : ∃ v ∈ data.vehicles, lookupFactor (pyLower v.fuel_type) = none) :
    ∃ v ∈ data.vehicles, lookupFactor (pyLower v.fuel_type) = none ∧
      calculate_emissions data = Except.error (pyLower v.fuel_type) ∧
      ∀ res, calculate_emissions data ≠ Except.ok res := by
  rcases computePerVehicles_error data.vehicles h with ⟨v, hv, hn, herr⟩
  refine ⟨v, hv, hn, ?_, ?_⟩
  · unfold calculate_emissions
    rw [herr]
  · intro res hok
    unfold calculate_emissions at hok
    rw [herr] at hok
    cases hok

/-- C2 witness: the theorem instantiated on the `"Hydrogen"` request. -/
theorem c2_unknown_fuel_rejected_witness :
    ∃ v ∈ reqBad.vehicles, lookupFactor (pyLower v.fuel_type) = none ∧
      calculate_emissions reqBad = Except.error (pyLower v.fuel_type) ∧
      ∀ res, calculate_emissions reqBad ≠ Except.ok res :=
  c2_unknown_fuel_rejected reqBad
    ⟨{ vehicle_type := "truck", count := 1, fuel_type := "Hydrogen",
       liters_per_vehicle := 3 },
     by simp [reqBad],
     by rw [pyLower_hydrogen]; exact lookupFactor_hydrogen⟩

/-- C3: on a successful run with a zero aggregate total, every percentage
field of every vehicle result is zero (the guarded division never fires). -/
theorem c3_zero_total_zero_percentages (data : EmissionsRequest)
    (res : EmissionsResult) (h : calculate_emissions data = Except.ok res)
    (h0 : res.total_co2_tons = 0) :
    ∀ r ∈ res.vehicle_results, r.percent_of_total = 0 ∧
      r.ozone_impact_percent = 0 ∧ r.climate_change_percent = 0 ∧
      r.glacier_melt_percent = 0 := by
  rcases calculate_emissions_ok data res h with ⟨rs, -, -, -, -, -, hres⟩
  intro r hmem
  rw [hres] at hmem
  rcases List.mem_map.mp hmem with ⟨r0, -, rfl⟩
  simp [finalizeResult, h0]

/-- C3 witness: the theorem instantiated on the zero-count request, at its one
vehicle result. -/
theorem c3_zero_total_zero_percentages_witness :
    (VehicleResult.mk "bike" "Diesel" 0 0 0 0 0 0 0 0).percent_of_total = 0 ∧
    (VehicleResult.mk "bike" "Diesel" 0 0 0 0 0 0 0 0).ozone_impact_percent = 0 ∧
    (VehicleResult.mk "bike" "Diesel" 0 0 0 0 0 0 0 0).climate_change_percent = 0 ∧
    (VehicleResult.mk "bike" "Diesel" 0 0 0 0 0 0 0 0).glacier_melt_percent = 0 :=
  c3_zero_total_zero_percentages reqZero resZero calc_reqZero (by simp [resZero])
    (VehicleResult.mk "bike" "Diesel" 0 0 0 0 0 0 0 0) (by simp [resZero])

/-- C4: on every successful run, `projected_co2_tons` is the aggregate total
times `1.005` to the power `max (year - 2025) 0`; for `year ≤ 2025` it equals
the aggregate total exactly. -/
theorem c4_projection (data : EmissionsRequest) (res : EmissionsResult)
    (h : calculate_emissions data = Except.ok res) :
    res.projected_co2_tons =
      res.total_co2_tons * (1 + 5 / 1000) ^ (max (data.year - 2025) 0).toNat ∧
    (data.year ≤ 2025 → res.projected_co2_tons = res.total_co2_tons) := by
  rcases calculate_emissions_ok data res h with ⟨rs, -, -, -, -, hproj, -⟩
  refine ⟨hproj, fun hy => ?_⟩
  have hmax : max (data.year - 2025) 0 = 0 := by omega
  rw [hproj, hmax]
  simp

/-- C4 witness: the theorem instantiated on concrete scenario 1 (year 2025). -/
theorem c4_projection_witness :
    resScenario1.projected_co2_tons =
      resScenario1.total_co2_tons *
        (1 + 5 / 1000) ^ (max (reqScenario1.year - 2025) 0).toNat ∧
    (reqScenario1.year ≤ 2025 →
      resScenario1.projected_co2_tons = resScenario1.total_co2_tons) :=
  c4_projection reqScenario1 resScenario1 calc_reqScenario1

/-- C5: on every successful run, the sum of `co2_kg` over `vehicle_results`
equals `total_co2_tons * 1000` exactly (exact rational arithmetic), and each
result's `co2_tons` is its `co2_kg / 1000`. -/
theorem c5_sum_invariant (data : EmissionsRequest) (res : EmissionsResult)
    (h : calculate_emissions data = Except.ok res) :
    (res.vehicle_results.map VehicleResult.co2_kg).sum = res.total_co2_tons * 1000 ∧
    ∀ r ∈ res.vehicle_results, r.co2_tons = r.co2_kg / 1000 := by
  rcases calculate_emissions_ok data res h with ⟨rs, -, -, -, htot, -, hres⟩
  constructor
  · have hcomp : (VehicleResult.co2_kg ∘ finalizeResult res.total_co2_tons) =
        PerVehicle.co2_kg := by
      funext r0
      rfl
    rw [hres, List.map_map, hcomp, htot]
    field_simp
  · intro r hmem
    rw [hres] at hmem
    rcases List.mem_map.mp hmem with ⟨r0, -, rfl⟩
    rfl

/-- C5 witness: the theorem instantiated on concrete scenario 1, at its one
vehicle result. -/
theorem c5_sum_invariant_witness :
    (resScenario1.vehicle_results.map VehicleResult.co2_kg).sum =
      resScenario1.total_co2_tons * 1000 ∧
    (VehicleResult.mk "car" "petrol" 2 20 (46954 / 1000) (46954 / 1000000)
        100 12 8 4).co2_tons =
      (VehicleResult.mk "car" "petrol" 2 20 (46954 / 1000) (46954 / 1000000)
        100 12 8 4).co2_kg / 1000 := by
  obtain ⟨h1, h2⟩ := c5_sum_invariant reqScenario1 resScenario1 calc_reqScenario1
  exact ⟨h1, h2 (VehicleResult.mk "car" "petrol" 2 20 (46954 / 1000)
    (46954 / 1000000) 100 12 8 4) (by simp [resScenario1])⟩

/-- C6: on every successful run with nonzero total, each impact percentage is
`co2_tons * coefficient / total_co2_tons * 100` with coefficients `0.12`,
`0.08`, `0.04`, which algebraically equals `coefficient * percent_of_total`. -/
theorem c6_impact_formulas (data : EmissionsRequest) (res : EmissionsResult)
    (h : calculate_emissions data = Except.ok res)
    (hne : res.total_co2_tons ≠ 0) :
    ozone_factor = 12 / 100 ∧ climate_factor = 8 / 100 ∧ glacier_factor = 4 / 100 ∧
    ∀ r ∈ res.vehicle_results,
      r.ozone_impact_percent = r.co2_tons * ozone_factor / res.total_co2_tons * 100 ∧
      r.climate_change_percent = r.co2_tons * climate_factor / res.total_co2_tons * 100 ∧
      r.glacier_melt_percent = r.co2_tons * glacier_factor / res.total_co2_tons * 100 ∧
      r.ozone_impact_percent = ozone_factor * r.percent_of_total ∧
      r.climate_change_percent = climate_factor * r.percent_of_total ∧
      r.glacier_melt_percent = glacier_factor * r.percent_of_total := by
  rcases calculate_emissions_ok data res h with ⟨rs, -, -, -, -, -, hres⟩
  refine ⟨rfl, rfl, rfl, ?_⟩
  intro r hmem
  rw [hres] at hmem
  rcases List.mem_map.mp hmem with ⟨r0, -, rfl⟩
  simp only [finalizeResult, if_pos hne]
  exact ⟨trivial, trivial, trivial, by ring, by ring, by ring⟩

/-- C6 witness: the theorem instantiated on concrete scenario 1, at its one
vehicle result. -/
theorem c6_impact_formulas_witness :
    ozone_factor = 12 / 100 ∧ climate_factor = 8 / 100 ∧ glacier_factor = 4 / 100 ∧
    (VehicleResult.mk "car" "petrol" 2 20 (46954 / 1000) (46954 / 1000000)
        100 12 8 4).ozone_impact_percent =
      (VehicleResult.mk "car" "petrol" 2 20 (46954 / 1000) (46954 / 1000000)
        100 12 8 4).co2_tons * ozone_factor / resScenario1.total_co2_tons * 100 ∧
    (VehicleResult.mk "car" "petrol" 2 20 (46954 / 1000) (46954 / 1000000)
        100 12 8 4).ozone_impact_percent =
      ozone_factor * (VehicleResult.mk "car" "petrol" 2 20 (46954 / 1000)
        (46954 / 1000000) 100 12 8 4).percent_of_total := by
  obtain ⟨h1, h2, h3, h4⟩ :=
    c6_impact_formulas reqScenario1 resScenario1 calc_reqScenario1
      (by norm_num [resScenario1])
  obtain ⟨g1, -, -, g4, -, -⟩ := h4 (VehicleResult.mk "car" "petrol" 2 20
    (46954 / 1000) (46954 / 1000000) 100 12 8 4) (by simp [resScenario1])
  exact ⟨h1, h2, h3, g1, g4⟩

/-- C7: on every successful run with positive total, the shares
`percent_of_total` sum to exactly 100 (exact rational arithmetic). -/
theorem c7_percent_sum_100 (data : EmissionsRequest) (res : EmissionsResult)
    (h : calculate_emissions data = Except.ok res)
    (hpos : 0 < res.total_co2_tons) :
    (res.vehicle_results.map VehicleResult.percent_of_total).sum = 100 := by
  rcases calculate_emissions_ok data res h with ⟨rs, -, -, -, htot, -, hres⟩
  have hne : res.total_co2_tons ≠ 0 := ne_of_gt hpos
  have hS : (rs.map PerVehicle.co2_kg).sum = res.total_co2_tons * 1000 := by
    rw [htot]
    field_simp
  have hmaps : res.vehicle_results.map VehicleResult.percent_of_total =
      (rs.map PerVehicle.co2_kg).map
        (fun x => x * (1 / 1000 / res.total_co2_tons * 100)) := by
    rw [hres, List.map_map, List.map_map]
    apply List.map_congr_left
    intro r0 _
    simp only [Function.comp_apply, finalizeResult, if_pos hne]
    ring
  rw [hmaps, list_sum_map_mul_const, hS]
  field_simp
  ring

/-- C7 witness: the theorem instantiated on concrete scenario 1. -/
theorem c7_percent_sum_100_witness :
    (resScenario1.vehicle_results.map VehicleResult.percent_of_total).sum = 100 :=
  c7_percent_sum_100 reqScenario1 resScenario1 calc_reqScenario1
    (by norm_num [resScenario1])

/-- C8: every successful run echoes `location` and `year`, produces exactly one
vehicle result per input record in input order, and copies `vehicle_type`,
`fuel_type` and `count` verbatim from the record at the same index. -/
theorem c8_echo_and_copy (data : EmissionsRequest) (res : EmissionsResult)
    (h : calculate_emissions data = Except.ok res) :
    res.location = data.location ∧ res.year = data.year ∧
    res.vehicle_results.length = data.vehicles.length ∧
    ∀ (i : Nat) (v : VehicleInput), data.vehicles[i]? = some v →
      ∃ r, res.vehicle_results[i]? = some r ∧
        r.vehicle_type = v.vehicle_type ∧ r.fuel_type = v.fuel_type ∧
        r.count = v.count := by
  rcases calculate_emissions_ok data res h with ⟨rs, hcv, hloc, hyear, -, -, hres⟩
  have hlen := computePerVehicles_ok_length data.vehicles rs hcv
  refine ⟨hloc, hyear, by rw [hres]; simp [hlen], ?_⟩
  intro i v hv
  rcases computePerVehicles_ok_get data.vehicles rs hcv i v hv with ⟨ef, -, hget⟩
  refine ⟨finalizeResult res.total_co2_tons (perVehicle v ef), ?_, rfl, rfl, rfl⟩
  rw [hres, List.getElem?_map, hget]
  rfl

/-- C8 witness: the theorem instantiated on concrete scenario 1 at index 0. -/
theorem c8_echo_and_copy_witness :
    resScenario1.location = reqScenario1.location ∧
    resScenario1.year = reqScenario1.year ∧
    resScenario1.vehicle_results.length = reqScenario1.vehicles.length ∧
    ∃ r, resScenario1.vehicle_results[0]? = some r ∧
      r.vehicle_type = (VehicleInput.mk "car" 2 "petrol" 10).vehicle_type ∧
      r.fuel_type = (VehicleInput.mk "car" 2 "petrol" 10).fuel_type ∧
      r.count = (VehicleInput.mk "car" 2 "petrol" 10).count := by
  obtain ⟨h1, h2, h3, h4⟩ :=
    c8_echo_and_copy reqScenario1 resScenario1 calc_reqScenario1
  exact ⟨h1, h2, h3, h4 0 (VehicleInput.mk "car" 2 "petrol" 10) rfl⟩

/-- C9: on the request of concrete scenario 1 the code returns exactly
`resScenario1`, whose one result has `total_fuel = 20`, `co2_kg = 46.954`,
`percent_of_total = 100`, with `total_co2_tons = 0.046954` and
`projected_co2_tons = 0.046954` (as exact rationals). -/
theorem c9_concrete_scenario1 :
    calculate_emissions reqScenario1 = Except.ok resScenario1 ∧
    resScenario1.total_co2_tons = 46954 / 1000000 ∧
    resScenario1.projected_co2_tons = 46954 / 1000000 ∧
    resScenario1.vehicle_results.map VehicleResult.total_fuel = [20] ∧
    resScenario1.vehicle_results.map VehicleResult.co2_kg = [46954 / 1000] ∧
    resScenario1.vehicle_results.map VehicleResult.percent_of_total = [100] :=
  ⟨calc_reqScenario1, rfl, rfl, rfl, rfl, rfl⟩

/-- C10: a request with an empty vehicle list succeeds, echoing `location` and
`year`, with an empty `vehicle_results`, `total_co2_tons = 0` and
`projected_co2_tons = 0`. -/
theorem c10_empty_vehicles (location : String) (year : Int) :
    calculate_emissions (EmissionsRequest.mk [] location year) =
      Except.ok (EmissionsResult.mk location year [] 0 0) := by
  simp [calculate_emissions, computePerVehicles]

/-- C10 witness: the theorem instantiated at a concrete location and year. -/
theorem c10_empty_vehicles_witness :
    calculate_emissions (EmissionsRequest.mk [] "A" 2030) =
      Except.ok (EmissionsResult.mk "A" 2030 [] 0 0) :=
  c10_empty_vehicles "A" 2030
